import Mathlib

/-!
Verification of the presence-tracking and offline-delivery-queue core of a
P2P file sharing backend (an Express server backed by MongoDB collections
`User`, `OnlineUsers` and `MessageQueue`).

The server's route handlers are embedded shallowly: each MongoDB collection
becomes a Lean list of records, `findOne` / `find?` returns the first match,
`findOneAndUpdate` (without upsert) updates the first matching record, and
each HTTP handler becomes a pure function from a server state (plus the
current time and request data) to a new state and an HTTP status code.
Timestamps are integers (milliseconds since the epoch, as JavaScript `Date`
comparisons reduce to millisecond comparisons).
-/

namespace P2PShare

/-- A registered identity (the `User` collection): `peerId` is the stable
peer identifier assigned at registration. -/
structure UserRec where
  peerId : String
  username : String
  email : String
deriving Repr, DecidableEq

/-- A presence record (the `OnlineUsers` collection): stored status is the
string "online" or "offline"; `lastSeen` is the last-heartbeat timestamp. -/
structure OnlineUser where
  peerId : String
  username : String
  email : String
  status : String
  lastSeen : Int
deriving Repr, DecidableEq

/-- A transfer record (the `MessageQueue` collection). `status` is "ready"
or "delivered"; `deliveredAt` is null until delivery is acknowledged. -/
structure QueueMessage where
  id : String
  senderPeerId : String
  senderUsername : String
  receiverPeerId : String
  ipfsHash : String
  fileName : String
  fileSize : Nat
  status : String
  createdAt : Int
  readyAt : Int
  deliveredAt : Option Int
deriving Repr, DecidableEq

/-- The durable state the route handlers act on: the three collections. -/
structure ServerState where
  users : List UserRec
  onlineUsers : List OnlineUser
  queue : List QueueMessage
deriving Repr, DecidableEq

/-- Update the first element satisfying `p` (the list embedding of MongoDB's
`findOneAndUpdate`, which updates exactly one matching document). -/
def updateFirst (p : α → Bool) (f : α → α) : List α → List α
  | [] => []
  | x :: xs => if p x then f x :: xs else x :: updateFirst p f xs

/-- Modelled from the spec: `OnlineUsers.markOnline` (the file
`models/OnlineUsers` is not among the sources; only its call sites are).
The spec describes it as "idempotent upsert; sets status = online,
refreshes timestamp", with the record "created on first heartbeat or
session start". -/
def markOnline (l : List OnlineUser) (now : Int)
    (peerId username email : String) : List OnlineUser :=
  match l.find? (fun o => o.peerId == peerId) with
  | some _ =>
      updateFirst (fun o => o.peerId == peerId)
        (fun o => { o with username := username, email := email,
                           status := "online", lastSeen := now }) l
  | none => l ++ [⟨peerId, username, email, "online", now⟩]

/-- The 2-minute staleness window used by the status route
(`2 * 60 * 1000` milliseconds in the handler). -/
def stalenessWindowMs : Int := 2 * 60 * 1000

/-- The JSON body of a successful `GET /api/user/status/:peerId` response. -/
structure UserStatusBody where
  online : Bool
  lastSeen : Option Int
  username : String
deriving Repr, DecidableEq

/-- Handler of `GET /api/user/status/:peerId`: 404 when the peer id is not a
registered identity; otherwise reports `online` as stored-status == "online"
AND lastSeen strictly inside the 2-minute window, with the presence record's
`lastSeen` (or null when no presence record exists). -/
def getUserStatus (s : ServerState) (now : Int) (peerId : String) :
    Except Nat UserStatusBody :=
  match s.users.find? (fun u => u.peerId == peerId) with
  | none => .error 404
  | some user =>
    let onlineUser := s.onlineUsers.find? (fun o => o.peerId == peerId)
    let timeThreshold : Int := now - stalenessWindowMs
    let isOnline : Bool :=
      match onlineUser with
      | some o => o.status == "online" && decide (timeThreshold < o.lastSeen)
      | none => false
    .ok ⟨isOnline, onlineUser.map (fun o => o.lastSeen), user.username⟩

/-- Handler of `POST /api/user/heartbeat`: 400 when `peerId` is missing,
otherwise `OnlineUsers.markOnline` and success. -/
def heartbeatRoute (s : ServerState) (now : Int)
    (peerId username email : String) : ServerState × Nat :=
  if peerId = "" then (s, 400)
  else ({ s with onlineUsers := markOnline s.onlineUsers now peerId username email }, 200)

/-- Handler of the socket `heartbeat` event: when the session's current user
matches the sent peer id, `findOneAndUpdate` sets only `lastSeen` on the
existing presence record (no upsert, so nothing happens for an unknown
peer); otherwise the event is ignored. -/
def heartbeatSocket (s : ServerState) (now : Int)
    (currentUser : Option String) (peerId : String) : ServerState :=
  if currentUser = some peerId then
    { s with onlineUsers :=
        (updateFirst (fun o => o.peerId == peerId)
          (fun o => { o with lastSeen := now }) s.onlineUsers) }
  else s

/-- Handler of `POST /api/user/mark-offline`: 400 when `peerId` is missing;
`findOneAndUpdate` (no upsert) sets status = "offline" and refreshes
`lastSeen`, returning 404 when no presence record exists. -/
def markOfflineRoute (s : ServerState) (now : Int) (peerId : String) :
    ServerState × Nat :=
  if peerId = "" then (s, 400)
  else
    match s.onlineUsers.find? (fun o => o.peerId == peerId) with
    | none => (s, 404)
    | some _ =>
      ({ s with onlineUsers :=
          (updateFirst (fun o => o.peerId == peerId)
            (fun o => { o with status := "offline", lastSeen := now })
            s.onlineUsers) }, 200)

/-- Handler of `GET /api/messages/pending/:peerId`: the records for this
receiver with status "ready", sorted by `readyAt` descending, paired with
their count. -/
def pendingMessagesRoute (s : ServerState) (peerId : String) :
    Nat × List QueueMessage :=
  let messages :=
    (s.queue.filter (fun m => m.receiverPeerId == peerId && m.status == "ready")).mergeSort
      (fun a b => decide (b.readyAt ≤ a.readyAt))
  (messages.length, messages)

/-- Handler of `POST /api/messages/delivered/:messageId`: 404 when no record
has this id; 403 when the requesting peer is not the record's receiver (the
record untouched); otherwise `findByIdAndUpdate` unconditionally sets
status = "delivered" and `deliveredAt` = now. -/
def markDeliveredRoute (s : ServerState) (now : Int)
    (messageId peerId : String) : ServerState × Nat :=
  match s.queue.find? (fun m => m.id == messageId) with
  | none => (s, 404)
  | some m =>
    if m.receiverPeerId = peerId then
      ({ s with queue :=
          (updateFirst (fun r => r.id == messageId)
            (fun r => { r with status := "delivered", deliveredAt := some now })
            s.queue) }, 200)
    else (s, 403)

/-- The uploaded temporary file, as multer hands it to the offline-share
handler. -/
structure FileUpload where
  originalname : String
  size : Nat
deriving Repr, DecidableEq

/-- Modelled from the spec: the `MessageQueue` schema defaults (the file
`models/MessageQueue` is not among the sources; only its uses are). The
spec says a record is created "in status = ready with ready-at = now",
with created-at set and delivered-at null until delivered; the handler
passes only the six explicit fields. -/
def newQueueMessage (newId : String) (now : Int)
    (senderPeerId senderUsername receiverPeerId ipfsHash fileName : String)
    (fileSize : Nat) : QueueMessage :=
  ⟨newId, senderPeerId, senderUsername, receiverPeerId, ipfsHash, fileName,
   fileSize, "ready", now, now, none⟩

/-- What the offline-share handler produced: the new state, the HTTP status,
whether the IPFS upload was attempted, whether the temporary local file was
deleted, and the IPFS hash returned on success. -/
structure ShareResult where
  state : ServerState
  httpStatus : Nat
  uploadAttempted : Bool
  tempFileDeleted : Bool
  ipfsHash : Option String
deriving Repr, DecidableEq

/-- Handler of `POST /api/share/offline`. `uploadOutcome` is what the Pinata
call produced: `none` when the request threw, `some h` when it returned a
response whose `IpfsHash` field is `h` (an empty hash is falsy in the
handler's check and treated as a failure). The handler rejects a missing
file or missing fields (400), rejects an unknown receiver (404), consults
the receiver's presence only for a log line, and only then uploads; on
upload failure the temporary file is deleted and no record is saved (500);
on success the record is saved and the temporary file deleted (200). -/
def shareOfflineRoute (s : ServerState) (now : Int)
    (file : Option FileUpload)
    (senderPeerId senderUsername receiverPeerId : String)
    (uploadOutcome : Option String) (newId : String) : ShareResult :=
  match file with
  | none => ⟨s, 400, false, false, none⟩
  | some f =>
    if senderPeerId = "" ∨ senderUsername = "" ∨ receiverPeerId = "" then
      ⟨s, 400, false, false, none⟩
    else
      match s.users.find? (fun u => u.peerId == receiverPeerId) with
      | none => ⟨s, 404, false, false, none⟩
      | some _ =>
        match uploadOutcome with
        | none => ⟨s, 500, true, true, none⟩
        | some h =>
          if h = "" then ⟨s, 500, true, true, none⟩
          else
            ⟨{ s with queue := s.queue ++
                [newQueueMessage newId now senderPeerId senderUsername
                  receiverPeerId h f.originalname f.size] },
             200, true, true, some h⟩

theorem find?_updateFirst_self {α : Type} (p : α → Bool) (f : α → α)
    {l : List α} {a : α} (h : l.find? p = some a) (hf : p (f a) = true) :
    (updateFirst p f l).find? p = some (f a) := by
  induction l with
  | nil => simp at h
  | cons x xs ih =>
    cases hpx : p x with
    | true =>
      rw [List.find?_cons_of_pos _ hpx] at h
      cases h
      simp [updateFirst, hpx, List.find?_cons_of_pos _ hf]
    | false =>
      rw [List.find?_cons_of_neg _ (by simp [hpx])] at h
      have hnx : ¬p x = true := by simp [hpx]
      simp [updateFirst, hpx, List.find?_cons_of_neg _ hnx, ih h]

theorem updateFirst_eq_of_find?_eq_none {α : Type} {p : α → Bool} {f : α → α}
    {l : List α} (h : l.find? p = none) : updateFirst p f l = l := by
  induction l with
  | nil => rfl
  | cons x xs ih =>
    rw [List.find?_eq_none] at h
    have hx : p x = false := by
      have := h x (by simp)
      simpa using this
    have hxs : xs.find? p = none := by
      rw [List.find?_eq_none]
      intro y hy
      exact h y (by simp [hy])
    simp [updateFirst, hx, ih hxs]

/-- C4: for a registered peer that has a presence record, the status route
reports the peer reachable exactly when the stored status is "online" and
the heartbeat age is strictly below the 2-minute staleness window; whenever
the age is at least the window the peer is reported unreachable. -/
theorem getUserStatus_reachable_iff (s : ServerState) (now : Int)
    (peerId : String) (user : UserRec) (ou : OnlineUser)
    (hu : s.users.find? (fun u => u.peerId == peerId) = some user)
    (ho : s.onlineUsers.find? (fun o => o.peerId == peerId) = some ou) :
    ∃ body, getUserStatus s now peerId = .ok body ∧
      (body.online = true ↔
        (ou.status = "online" ∧ now - ou.lastSeen < stalenessWindowMs)) ∧
      (stalenessWindowMs ≤ now - ou.lastSeen → body.online = false) := by
  refine ⟨⟨ou.status == "online" && decide (now - stalenessWindowMs < ou.lastSeen),
          some ou.lastSeen, user.username⟩, ?_, ?_, ?_⟩
  · simp [getUserStatus, hu, ho]
  · constructor
    · intro h
      simp only [Bool.and_eq_true, beq_iff_eq, decide_eq_true_eq] at h
      exact ⟨h.1, by omega⟩
    · intro h
      simp only [Bool.and_eq_true, beq_iff_eq, decide_eq_true_eq]
      exact ⟨h.1, by omega⟩
  · intro h
    simp only [Bool.and_eq_false_iff]
    right
    simp only [decide_eq_false_iff_not]
    omega

theorem getUserStatus_reachable_iff_witness :
    ∃ body,
      getUserStatus ⟨[⟨"p1", "alice", "a"⟩],
        [⟨"p1", "alice", "a", "online", 0⟩], []⟩ 150000 "p1" = .ok body ∧
      (body.online = true ↔
        (("online" : String) = "online" ∧
          (150000 : Int) - 0 < stalenessWindowMs)) ∧
      (stalenessWindowMs ≤ (150000 : Int) - 0 → body.online = false) :=
  getUserStatus_reachable_iff ⟨[⟨"p1", "alice", "a"⟩],
    [⟨"p1", "alice", "a", "online", 0⟩], []⟩ 150000 "p1"
    ⟨"p1", "alice", "a"⟩ ⟨"p1", "alice", "a", "online", 0⟩ rfl rfl

/-- C10: a peer id registered in the identity store but with no presence
record gets a successful status reply reporting unreachable with a null
last-seen; only a peer id absent from the identity store yields 404. -/
theorem getUserStatus_no_presence_record (s : ServerState) (now : Int)
    (peerId : String) :
    (∀ user, s.users.find? (fun u => u.peerId == peerId) = some user →
       s.onlineUsers.find? (fun o => o.peerId == peerId) = none →
       getUserStatus s now peerId = .ok ⟨false, none, user.username⟩) ∧
    (s.users.find? (fun u => u.peerId == peerId) = none →
       getUserStatus s now peerId = .error 404) := by
  constructor
  · intro user hu ho
    simp [getUserStatus, hu, ho]
  · intro hu
    simp [getUserStatus, hu]

theorem getUserStatus_no_presence_record_witness :
    (∀ user,
       (ServerState.users ⟨[⟨"p1", "alice", "a"⟩], [], []⟩).find?
           (fun u => u.peerId == "p1") = some user →
       (ServerState.onlineUsers ⟨[⟨"p1", "alice", "a"⟩], [], []⟩).find?
           (fun o => o.peerId == "p1") = none →
       getUserStatus ⟨[⟨"p1", "alice", "a"⟩], [], []⟩ 7 "p1" =
         .ok ⟨false, none, user.username⟩) ∧
    ((ServerState.users ⟨[⟨"p1", "alice", "a"⟩], [], []⟩).find?
         (fun u => u.peerId == "p1") = none →
       getUserStatus ⟨[⟨"p1", "alice", "a"⟩], [], []⟩ 7 "p1" = .error 404) :=
  getUserStatus_no_presence_record ⟨[⟨"p1", "alice", "a"⟩], [], []⟩ 7 "p1"

/-- C5: the pending-messages route returns exactly the queue records whose
receiver is the requested peer and whose status is "ready", sorted by
`readyAt` descending, with a count equal to the number of returned
records. -/
theorem pendingMessages_spec (s : ServerState) (peerId : String) :
    (∀ m, m ∈ (pendingMessagesRoute s peerId).2 ↔
       m ∈ s.queue ∧ m.receiverPeerId = peerId ∧ m.status = "ready") ∧
    (pendingMessagesRoute s peerId).2.Pairwise
      (fun a b => b.readyAt ≤ a.readyAt) ∧
    (pendingMessagesRoute s peerId).1 = (pendingMessagesRoute s peerId).2.length := by
  refine ⟨?_, ?_, rfl⟩
  · intro m
    simp [pendingMessagesRoute, List.mem_mergeSort, List.mem_filter, and_assoc]
  · have h := @List.sorted_mergeSort QueueMessage
      (fun a b : QueueMessage => decide (b.readyAt ≤ a.readyAt))
      (fun a b c hab hbc => by
        simp only [decide_eq_true_eq] at hab hbc ⊢; omega)
      (fun a b => by
        simp only [Bool.or_eq_true, decide_eq_true_eq]; omega)
      (s.queue.filter (fun m => m.receiverPeerId == peerId && m.status == "ready"))
    exact h.imp (fun hab => by simpa using hab)

theorem markOnline_find? (l : List OnlineUser) (now : Int)
    (peerId username email : String) :
    (markOnline l now peerId username email).find? (fun o => o.peerId == peerId) =
      some ⟨peerId, username, email, "online", now⟩ := by
  cases hfind : l.find? (fun o => o.peerId == peerId) with
  | none => simp [markOnline, hfind, List.find?_append]
  | some o =>
    have hpo : o.peerId = peerId := by simpa using List.find?_some hfind
    have hf : (fun x : OnlineUser => x.peerId == peerId)
        ({ o with username := username, email := email,
                  status := "online", lastSeen := now }) = true := by
      simpa using List.find?_some hfind
    have key := find?_updateFirst_self (fun x : OnlineUser => x.peerId == peerId)
      (fun o => { o with username := username, email := email,
                         status := "online", lastSeen := now }) hfind hf
    simp only [markOnline, hfind]
    rw [key]
    simp [hpo]

/-- C2 (amended): a heartbeat never fails with NotFound. The HTTP heartbeat
route upserts the presence record — it succeeds (200) even for a peer with
no prior record, creating the record and setting its stored status to
"online" with last-heartbeat = now. The socket heartbeat refreshes only the
last-heartbeat timestamp of an existing record and silently leaves the
state unchanged when no record exists. -/
theorem heartbeat_no_notFound (s : ServerState) (now : Int)
    (peerId username email : String) (hp : peerId ≠ "") :
    ((heartbeatRoute s now peerId username email).2 = 200 ∧
     (heartbeatRoute s now peerId username email).1.onlineUsers.find?
        (fun o => o.peerId == peerId) =
       some ⟨peerId, username, email, "online", now⟩) ∧
    (s.onlineUsers.find? (fun o => o.peerId == peerId) = none →
       heartbeatSocket s now (some peerId) peerId = s) ∧
    (∀ o, s.onlineUsers.find? (fun o => o.peerId == peerId) = some o →
       (heartbeatSocket s now (some peerId) peerId).onlineUsers.find?
          (fun x => x.peerId == peerId) = some { o with lastSeen := now }) := by
  refine ⟨⟨?_, ?_⟩, ?_, ?_⟩
  · simp [heartbeatRoute, hp]
  · simp [heartbeatRoute, hp, markOnline_find?]
  · intro h
    simp [heartbeatSocket, updateFirst_eq_of_find?_eq_none h]
  · intro o ho
    have hf : (fun x : OnlineUser => x.peerId == peerId)
        ({ o with lastSeen := now }) = true := by
      simpa using List.find?_some ho
    have key := find?_updateFirst_self (fun x : OnlineUser => x.peerId == peerId)
      (fun o => { o with lastSeen := now }) ho hf
    simpa [heartbeatSocket] using key

theorem heartbeat_no_notFound_witness :
    ((heartbeatRoute ⟨[], [], []⟩ 5 "p1" "u1" "e1").2 = 200 ∧
     (heartbeatRoute ⟨[], [], []⟩ 5 "p1" "u1" "e1").1.onlineUsers.find?
        (fun o => o.peerId == "p1") = some ⟨"p1", "u1", "e1", "online", 5⟩) ∧
    ((ServerState.onlineUsers ⟨[], [], []⟩).find? (fun o => o.peerId == "p1") = none →
       heartbeatSocket ⟨[], [], []⟩ 5 (some "p1") "p1" = ⟨[], [], []⟩) ∧
    (∀ o, (ServerState.onlineUsers ⟨[], [], []⟩).find? (fun o => o.peerId == "p1") = some o →
       (heartbeatSocket ⟨[], [], []⟩ 5 (some "p1") "p1").onlineUsers.find?
          (fun x => x.peerId == "p1") = some { o with lastSeen := 5 }) :=
  heartbeat_no_notFound ⟨[], [], []⟩ 5 "p1" "u1" "e1" (by decide)

/-- C2 counterexample: a heartbeat for a peer id with no prior presence
record does not fail with NotFound and does not leave the presence table
empty — the HTTP heartbeat route returns 200 and creates the record. -/
theorem heartbeat_unknown_peer_cex :
    heartbeatRoute ⟨[], [], []⟩ 5 "p1" "u1" "e1" =
      (⟨[], [⟨"p1", "u1", "e1", "online", 5⟩], []⟩, 200) ∧ (200 : Nat) ≠ 404 := by
  exact ⟨by decide, by decide⟩

/-- C1 (amended): a second markDelivered call on an already delivered
record with the correct receiver peer id still succeeds (200) and the
record stays delivered (status never moves back to ready), but delivered-at
is overwritten with the time of the later call instead of being left
unchanged. -/
theorem markDelivered_reack (s : ServerState) (now : Int)
    (messageId peerId : String) (m : QueueMessage)
    (hm : s.queue.find? (fun r => r.id == messageId) = some m)
    (hrecv : m.receiverPeerId = peerId) (_hst : m.status = "delivered") :
    (markDeliveredRoute s now messageId peerId).2 = 200 ∧
    (markDeliveredRoute s now messageId peerId).1.queue.find?
        (fun r => r.id == messageId) =
      some { m with status := "delivered", deliveredAt := some now } := by
  subst hrecv
  have hf : (fun r : QueueMessage => r.id == messageId)
      ({ m with status := "delivered", deliveredAt := some now }) = true := by
    simpa using List.find?_some hm
  have key := find?_updateFirst_self (fun r : QueueMessage => r.id == messageId)
    (fun r => { r with status := "delivered", deliveredAt := some now }) hm hf
  constructor
  · simp [markDeliveredRoute, hm]
  · simpa [markDeliveredRoute, hm] using key

theorem markDelivered_reack_witness :
    (markDeliveredRoute ⟨[], [],
        [⟨"m1", "p1", "alice", "p2", "Qm1", "doc.pdf", 1024, "delivered", 0, 0, some 1000⟩]⟩
        2000 "m1" "p2").2 = 200 ∧
    (markDeliveredRoute ⟨[], [],
        [⟨"m1", "p1", "alice", "p2", "Qm1", "doc.pdf", 1024, "delivered", 0, 0, some 1000⟩]⟩
        2000 "m1" "p2").1.queue.find? (fun r => r.id == "m1") =
      some ⟨"m1", "p1", "alice", "p2", "Qm1", "doc.pdf", 1024, "delivered", 0, 0, some 2000⟩ :=
  markDelivered_reack ⟨[], [],
      [⟨"m1", "p1", "alice", "p2", "Qm1", "doc.pdf", 1024, "delivered", 0, 0, some 1000⟩]⟩
    2000 "m1" "p2"
    ⟨"m1", "p1", "alice", "p2", "Qm1", "doc.pdf", 1024, "delivered", 0, 0, some 1000⟩
    (by decide) rfl rfl

/-- C1 counterexample: on a record already delivered at time 1000, a second
markDelivered by the correct receiver at time 2000 returns success but the
record's delivered-at becomes 2000 — it is not left unchanged. -/
theorem markDelivered_reack_cex :
    (markDeliveredRoute ⟨[], [],
        [⟨"m1", "p1", "alice", "p2", "Qm1", "doc.pdf", 1024, "delivered", 0, 0, some 1000⟩]⟩
        2000 "m1" "p2").2 = 200 ∧
    (markDeliveredRoute ⟨[], [],
        [⟨"m1", "p1", "alice", "p2", "Qm1", "doc.pdf", 1024, "delivered", 0, 0, some 1000⟩]⟩
        2000 "m1" "p2").1.queue =
      [⟨"m1", "p1", "alice", "p2", "Qm1", "doc.pdf", 1024, "delivered", 0, 0, some 2000⟩] ∧
    some (2000 : Int) ≠ some (1000 : Int) := by
  exact ⟨by decide, by decide, by decide⟩

/-- C3: a markDelivered request whose requesting peer id differs from the
record's receiver peer id fails with 403 and leaves the entire server state
unchanged; the record is still returned (as ready) by a subsequent pending
query for the true receiver. -/
theorem markDelivered_unauthorized (s : ServerState) (now : Int)
    (messageId peerId : String) (m : QueueMessage)
    (hm : s.queue.find? (fun r => r.id == messageId) = some m)
    (hne : m.receiverPeerId ≠ peerId) (hready : m.status = "ready") :
    markDeliveredRoute s now messageId peerId = (s, 403) ∧
    m ∈ (pendingMessagesRoute (markDeliveredRoute s now messageId peerId).1
          m.receiverPeerId).2 := by
  have heq : markDeliveredRoute s now messageId peerId = (s, 403) := by
    simp [markDeliveredRoute, hm, hne]
  refine ⟨heq, ?_⟩
  rw [heq]
  simp only [pendingMessagesRoute, List.mem_mergeSort, List.mem_filter]
  exact ⟨List.mem_of_find?_eq_some hm, by simp [hready]⟩

theorem markDelivered_unauthorized_witness :
    markDeliveredRoute ⟨[], [],
        [⟨"m1", "p1", "alice", "p2", "Qm1", "doc.pdf", 1024, "ready", 0, 0, none⟩]⟩
        7 "m1" "p3" =
      (⟨[], [], [⟨"m1", "p1", "alice", "p2", "Qm1", "doc.pdf", 1024, "ready", 0, 0, none⟩]⟩, 403) ∧
    (⟨"m1", "p1", "alice", "p2", "Qm1", "doc.pdf", 1024, "ready", 0, 0, none⟩ : QueueMessage) ∈
      (pendingMessagesRoute (markDeliveredRoute ⟨[], [],
          [⟨"m1", "p1", "alice", "p2", "Qm1", "doc.pdf", 1024, "ready", 0, 0, none⟩]⟩
          7 "m1" "p3").1 "p2").2 :=
  markDelivered_unauthorized ⟨[], [],
      [⟨"m1", "p1", "alice", "p2", "Qm1", "doc.pdf", 1024, "ready", 0, 0, none⟩]⟩
    7 "m1" "p3" ⟨"m1", "p1", "alice", "p2", "Qm1", "doc.pdf", 1024, "ready", 0, 0, none⟩
    (by decide) (by decide) rfl

/-- C8: for a peer id with a presence record, mark-offline succeeds, sets
the stored status to "offline" and refreshes last-seen to now, leaving the
identity store and the transfer queue untouched; for a peer id with no
presence record it fails with 404 and changes nothing. -/
theorem markOffline_spec (s : ServerState) (now : Int) (peerId : String)
    (hp : peerId ≠ "") :
    (s.onlineUsers.find? (fun o => o.peerId == peerId) = none →
       markOfflineRoute s now peerId = (s, 404)) ∧
    (∀ o, s.onlineUsers.find? (fun o => o.peerId == peerId) = some o →
       (markOfflineRoute s now peerId).2 = 200 ∧
       (markOfflineRoute s now peerId).1.users = s.users ∧
       (markOfflineRoute s now peerId).1.queue = s.queue ∧
       (markOfflineRoute s now peerId).1.onlineUsers.find?
          (fun x => x.peerId == peerId) =
         some { o with status := "offline", lastSeen := now }) := by
  constructor
  · intro h
    simp [markOfflineRoute, hp, h]
  · intro o ho
    have hf : (fun x : OnlineUser => x.peerId == peerId)
        ({ o with status := "offline", lastSeen := now }) = true := by
      simpa using List.find?_some ho
    have key := find?_updateFirst_self (fun x : OnlineUser => x.peerId == peerId)
      (fun o => { o with status := "offline", lastSeen := now }) ho hf
    exact ⟨by simp [markOfflineRoute, hp, ho], by simp [markOfflineRoute, hp, ho],
           by simp [markOfflineRoute, hp, ho],
           by simpa [markOfflineRoute, hp, ho] using key⟩

theorem markOffline_spec_witness :
    ((ServerState.onlineUsers ⟨[], [⟨"p1", "u1", "e1", "online", 3⟩], []⟩).find?
        (fun o => o.peerId == "p1") = none →
       markOfflineRoute ⟨[], [⟨"p1", "u1", "e1", "online", 3⟩], []⟩ 9 "p1" =
         (⟨[], [⟨"p1", "u1", "e1", "online", 3⟩], []⟩, 404)) ∧
    (∀ o, (ServerState.onlineUsers ⟨[], [⟨"p1", "u1", "e1", "online", 3⟩], []⟩).find?
        (fun o => o.peerId == "p1") = some o →
       (markOfflineRoute ⟨[], [⟨"p1", "u1", "e1", "online", 3⟩], []⟩ 9 "p1").2 = 200 ∧
       (markOfflineRoute ⟨[], [⟨"p1", "u1", "e1", "online", 3⟩], []⟩ 9 "p1").1.users = [] ∧
       (markOfflineRoute ⟨[], [⟨"p1", "u1", "e1", "online", 3⟩], []⟩ 9 "p1").1.queue = [] ∧
       (markOfflineRoute ⟨[], [⟨"p1", "u1", "e1", "online", 3⟩], []⟩ 9 "p1").1.onlineUsers.find?
          (fun x => x.peerId == "p1") =
         some { o with status := "offline", lastSeen := 9 }) :=
  markOffline_spec ⟨[], [⟨"p1", "u1", "e1", "online", 3⟩], []⟩ 9 "p1" (by decide)

theorem pendingMessages_spec_witness :
    (∀ m, m ∈ (pendingMessagesRoute ⟨[], [],
        [⟨"m1", "p1", "alice", "p2", "Qm1", "doc.pdf", 1024, "ready", 0, 0, none⟩]⟩ "p2").2 ↔
       m ∈ (ServerState.queue ⟨[], [],
        [⟨"m1", "p1", "alice", "p2", "Qm1", "doc.pdf", 1024, "ready", 0, 0, none⟩]⟩) ∧
         m.receiverPeerId = "p2" ∧ m.status = "ready") ∧
    (pendingMessagesRoute ⟨[], [],
        [⟨"m1", "p1", "alice", "p2", "Qm1", "doc.pdf", 1024, "ready", 0, 0, none⟩]⟩ "p2").2.Pairwise
      (fun a b => b.readyAt ≤ a.readyAt) ∧
    (pendingMessagesRoute ⟨[], [],
        [⟨"m1", "p1", "alice", "p2", "Qm1", "doc.pdf", 1024, "ready", 0, 0, none⟩]⟩ "p2").1 =
      (pendingMessagesRoute ⟨[], [],
        [⟨"m1", "p1", "alice", "p2", "Qm1", "doc.pdf", 1024, "ready", 0, 0, none⟩]⟩ "p2").2.length :=
  pendingMessages_spec ⟨[], [],
    [⟨"m1", "p1", "alice", "p2", "Qm1", "doc.pdf", 1024, "ready", 0, 0, none⟩]⟩ "p2"

/-- C6: when the blob upload fails (the request threw, or returned no
usable hash), the offline-share handler persists no queue record, deletes
the transient local file, and reports 500; and for any upload outcome, every
record in the resulting queue either existed before or carries the non-empty
hash the successful upload returned — no record with an unresolvable blob
reference is ever persisted. -/
theorem shareOffline_no_dangling_record (s : ServerState) (now : Int)
    (f : FileUpload) (sp su rp newId : String)
    (hsp : sp ≠ "") (hsu : su ≠ "") (hrp : rp ≠ "")
    (hrecv : (s.users.find? (fun u => u.peerId == rp)).isSome) :
    (shareOfflineRoute s now (some f) sp su rp none newId =
       ⟨s, 500, true, true, none⟩) ∧
    (shareOfflineRoute s now (some f) sp su rp (some "") newId =
       ⟨s, 500, true, true, none⟩) ∧
    (∀ u m, m ∈ (shareOfflineRoute s now (some f) sp su rp u newId).state.queue →
       m ∈ s.queue ∨ ∃ h, u = some h ∧ h ≠ "" ∧ m.ipfsHash = h) := by
  obtain ⟨recv, hr⟩ := Option.isSome_iff_exists.mp hrecv
  refine ⟨?_, ?_, ?_⟩
  · simp [shareOfflineRoute, hsp, hsu, hrp, hr]
  · simp [shareOfflineRoute, hsp, hsu, hrp, hr]
  · intro u m hm
    cases hu : u with
    | none =>
      subst hu
      simp [shareOfflineRoute, hsp, hsu, hrp, hr] at hm
      exact Or.inl hm
    | some h =>
      subst hu
      by_cases hh : h = ""
      · subst hh
        simp [shareOfflineRoute, hsp, hsu, hrp, hr] at hm
        exact Or.inl hm
      · simp [shareOfflineRoute, hsp, hsu, hrp, hr, hh] at hm
        rcases hm with hm | hm
        · exact Or.inl hm
        · exact Or.inr ⟨h, rfl, hh, by simp [hm, newQueueMessage]⟩

theorem shareOffline_no_dangling_record_witness :
    (shareOfflineRoute ⟨[⟨"p2", "bob", "b"⟩], [], []⟩ 11 (some ⟨"doc.pdf", 1024⟩)
        "p1" "alice" "p2" none "m1" =
       ⟨⟨[⟨"p2", "bob", "b"⟩], [], []⟩, 500, true, true, none⟩) ∧
    (shareOfflineRoute ⟨[⟨"p2", "bob", "b"⟩], [], []⟩ 11 (some ⟨"doc.pdf", 1024⟩)
        "p1" "alice" "p2" (some "") "m1" =
       ⟨⟨[⟨"p2", "bob", "b"⟩], [], []⟩, 500, true, true, none⟩) ∧
    (∀ u m, m ∈ (shareOfflineRoute ⟨[⟨"p2", "bob", "b"⟩], [], []⟩ 11
          (some ⟨"doc.pdf", 1024⟩) "p1" "alice" "p2" u "m1").state.queue →
       m ∈ (ServerState.queue ⟨[⟨"p2", "bob", "b"⟩], [], []⟩) ∨
         ∃ h, u = some h ∧ h ≠ "" ∧ m.ipfsHash = h) :=
  shareOffline_no_dangling_record ⟨[⟨"p2", "bob", "b"⟩], [], []⟩ 11
    ⟨"doc.pdf", 1024⟩ "p1" "alice" "p2" "m1"
    (by decide) (by decide) (by decide) (by decide)

/-- C7: an offline-share request whose receiver peer id matches no
registered identity fails with 404 before any upload is attempted, whatever
the upload would have produced, and changes nothing; when the receiver
identity exists and the upload succeeds, a record is appended in status
"ready". -/
theorem shareOffline_receiver_check (s : ServerState) (now : Int)
    (f : FileUpload) (sp su rp newId : String)
    (hsp : sp ≠ "") (hsu : su ≠ "") (hrp : rp ≠ "") :
    (s.users.find? (fun u => u.peerId == rp) = none →
       ∀ u, shareOfflineRoute s now (some f) sp su rp u newId =
         ⟨s, 404, false, false, none⟩) ∧
    (∀ recv h, s.users.find? (fun u => u.peerId == rp) = some recv → h ≠ "" →
       shareOfflineRoute s now (some f) sp su rp (some h) newId =
         ⟨{ s with queue := (s.queue ++
             [newQueueMessage newId now sp su rp h f.originalname f.size]) },
          200, true, true, some h⟩ ∧
       (newQueueMessage newId now sp su rp h f.originalname f.size).status = "ready") := by
  constructor
  · intro hnone u
    simp [shareOfflineRoute, hsp, hsu, hrp, hnone]
  · intro recv h hr hh
    exact ⟨by simp [shareOfflineRoute, hsp, hsu, hrp, hr, hh], rfl⟩

theorem shareOffline_receiver_check_witness :
    ((ServerState.users ⟨[⟨"p2", "bob", "b"⟩], [], []⟩).find?
        (fun u => u.peerId == "p2") = none →
       ∀ u, shareOfflineRoute ⟨[⟨"p2", "bob", "b"⟩], [], []⟩ 11
           (some ⟨"doc.pdf", 1024⟩) "p1" "alice" "p2" u "m1" =
         ⟨⟨[⟨"p2", "bob", "b"⟩], [], []⟩, 404, false, false, none⟩) ∧
    (∀ recv h, (ServerState.users ⟨[⟨"p2", "bob", "b"⟩], [], []⟩).find?
        (fun u => u.peerId == "p2") = some recv → h ≠ "" →
       shareOfflineRoute ⟨[⟨"p2", "bob", "b"⟩], [], []⟩ 11
           (some ⟨"doc.pdf", 1024⟩) "p1" "alice" "p2" (some h) "m1" =
         ⟨{ ServerState.mk [⟨"p2", "bob", "b"⟩] [] [] with queue :=
             (ServerState.queue ⟨[⟨"p2", "bob", "b"⟩], [], []⟩ ++
               [newQueueMessage "m1" 11 "p1" "alice" "p2" h "doc.pdf" 1024]) },
          200, true, true, some h⟩ ∧
       (newQueueMessage "m1" 11 "p1" "alice" "p2" h "doc.pdf" 1024).status = "ready") :=
  shareOffline_receiver_check ⟨[⟨"p2", "bob", "b"⟩], [], []⟩ 11
    ⟨"doc.pdf", 1024⟩ "p1" "alice" "p2" "m1" (by decide) (by decide) (by decide)

/-- C9: the offline-share handler never reads the receiver's reachability
to decide the outcome: with the receiver identity present and the upload
successful, the request succeeds and appends the ready record for every
possible presence table — receiver marked online, offline, or absent
alike. -/
theorem shareOffline_presence_independent (s : ServerState) (now : Int)
    (f : FileUpload) (sp su rp h newId : String) (recv : UserRec)
    (hsp : sp ≠ "") (hsu : su ≠ "") (hrp : rp ≠ "")
    (hrecv : s.users.find? (fun x => x.peerId == rp) = some recv)
    (hh : h ≠ "") :
    ∀ o : List OnlineUser,
      shareOfflineRoute { s with onlineUsers := o } now (some f) sp su rp
          (some h) newId =
        ⟨{ s with onlineUsers := o, queue := (s.queue ++
            [newQueueMessage newId now sp su rp h f.originalname f.size]) },
         200, true, true, some h⟩ := by
  intro o
  simp [shareOfflineRoute, hsp, hsu, hrp, hh]
  simp [show ({ s with onlineUsers := o } : ServerState).users.find?
      (fun x => x.peerId == rp) = some recv from hrecv]

theorem shareOffline_presence_independent_witness :
    shareOfflineRoute ⟨[⟨"p2", "bob", "b"⟩], [⟨"p2", "bob", "b", "online", 11⟩], []⟩
        11 (some ⟨"doc.pdf", 1024⟩) "p1" "alice" "p2" (some "Qm1") "m1" =
      ⟨⟨[⟨"p2", "bob", "b"⟩], [⟨"p2", "bob", "b", "online", 11⟩],
        [newQueueMessage "m1" 11 "p1" "alice" "p2" "Qm1" "doc.pdf" 1024]⟩,
       200, true, true, some "Qm1"⟩ :=
  shareOffline_presence_independent ⟨[⟨"p2", "bob", "b"⟩], [], []⟩ 11
    ⟨"doc.pdf", 1024⟩ "p1" "alice" "p2" "Qm1" "m1" ⟨"p2", "bob", "b"⟩
    (by decide) (by decide) (by decide) rfl (by decide)
    [⟨"p2", "bob", "b", "online", 11⟩]

end P2PShare
